import Mathlib

/-!
Verification development for the FoodieBot interest-scoring and
recommendation engine.

The definitions below are a shallow embedding of the Python sources
`backend/conversation_service.py` and `backend/recommendation_engine.py`
(package "Complete System Package").  Python strings become `String`,
Python `str.lower` becomes `pyLower` (ASCII lowering, which covers every
keyword in the source), Python substring containment (`a in b`) becomes
`strContains`, Python `None`-able JSON columns become `Option`, Python
floats become `ℚ`, and Python falsy-`or` defaulting becomes `pyOrL` /
`pyOrQ`.  Each definition carries a comment pointing at the source lines
it embeds.
-/

namespace FoodieBot

/-- Python substring containment: `pat in hay` on strings. -/
def strContains (hay pat : String) : Bool :=
  decide (pat.data <:+: hay.data)

/-- Python `str.lower()` (ASCII; all keywords in the source are ASCII). -/
def pyLower (s : String) : String :=
  ⟨s.data.map Char.toLower⟩

/-- Python `xs or []` for a nullable JSON list column. -/
def pyOrL (o : Option (List String)) : List String :=
  match o with
  | none => []
  | some l => l

/-- Python `x or d` for a nullable numeric column: `None` and `0` are falsy. -/
def pyOrQ (o : Option ℚ) (d : ℚ) : ℚ :=
  match o with
  | none => d
  | some v => if v = 0 then d else v

/-- The repeated Python merge idiom
`for x in new: if x not in acc: acc.append(x)`
(conversation_service.py lines 121-134, recommendation_engine.py 176-180). -/
def pyMergeList (old new : List String) : List String :=
  new.foldl (fun acc d => if d ∈ acc then acc else acc ++ [d]) old

/-- Stable insertion (descending by key): models one step of Python's
stable `sort(key=..., reverse=True)` / SQL `ORDER BY ... DESC`. -/
def insertDescBy {α β : Type} [LinearOrder β] (key : α → β) (a : α) :
    List α → List α
  | [] => [a]
  | b :: bs => if key a < key b then b :: insertDescBy key a bs else a :: b :: bs

/-- Stable sort, descending by key. -/
def sortDescBy {α β : Type} [LinearOrder β] (key : α → β) (l : List α) : List α :=
  l.foldr (insertDescBy key) []

/-- Apostrophe, used inside keyword strings from the source. -/
def apos : String := (Char.ofNat 39).toString

/-! ## Conversation service: keyword tables
(conversation_service.py lines 19-78) -/

/-- Table `self.ENGAGEMENT_FACTORS` (lines 19-28). -/
def ENGAGEMENT_FACTORS (k : String) : Int :=
  if k = "specific_preferences" then 15
  else if k = "dietary_restrictions" then 10
  else if k = "budget_mention" then 5
  else if k = "mood_indication" then 20
  else if k = "question_asking" then 10
  else if k = "enthusiasm_words" then 8
  else if k = "price_inquiry" then 25
  else if k = "order_intent" then 30
  else 0

/-- Table `self.NEGATIVE_FACTORS` (lines 30-36). -/
def NEGATIVE_FACTORS (k : String) : Int :=
  if k = "hesitation" then -10
  else if k = "budget_concern" then -15
  else if k = "dietary_conflict" then -20
  else if k = "rejection" then -25
  else if k = "delay_response" then -5
  else 0

/-- Lines 39-43. -/
def specific_preference_keywords : List String :=
  ["spicy", "mild", "hot", "korean", "mexican", "italian", "chinese",
   "burger", "pizza", "taco", "salad", "chicken", "beef", "vegetarian",
   "vegan", "crispy", "juicy", "creamy", "crunchy", "sweet", "salty"]

/-- Lines 45-48. -/
def dietary_keywords : List String :=
  ["vegetarian", "vegan", "gluten-free", "dairy-free", "keto", "low-carb",
   "halal", "kosher", "allergic", "allergy", "no dairy", "no gluten"]

/-- Lines 50-53. -/
def mood_keywords : List String :=
  ["adventurous", "comfort", "healthy", "indulgent", "quick", "fancy",
   "feeling", "mood", "craving", "want something", "in the mood for"]

/-- Lines 55-58. -/
def enthusiasm_keywords : List String :=
  ["amazing", "perfect", "love", "awesome", "fantastic", "great",
   "excellent", "wonderful", "delicious", "yummy", "sounds good"]

/-- Lines 60-63. -/
def hesitation_keywords : List String :=
  ["maybe", "not sure", "uncertain", "hmm", "i think", "perhaps",
   "possibly", "might", "could be", "not really sure"]

/-- Lines 65-68. -/
def budget_concern_keywords : List String :=
  ["too expensive", "too much", "costly", "pricey", "expensive",
   "cheap", "affordable", "budget", "money"]

/-- Lines 70-73. -/
def question_keywords : List String :=
  ["what", "how", "when", "where", "why", "which", "can you",
   "do you have", "is it", "does it", "spice level", "ingredients"]

/-- Lines 75-78. -/
def order_intent_keywords : List String :=
  ["i" ++ apos ++ "ll take", "add to cart", "order", "get me", "i want that",
   "sounds perfect", "i" ++ apos ++ "ll have", "give me", "let" ++ apos ++ "s go with"]

/-- Lines 259-262: `price_inquiry_patterns`. -/
def price_inquiry_patterns : List String :=
  ["how much", "what does it cost", "price", "cost", "expensive",
   "how much is", "what" ++ apos ++ "s the price"]

/-- Lines 310-313: `rejection_patterns`. -/
def rejection_patterns : List String :=
  ["i don" ++ apos ++ "t like", "not interested", "no thanks",
   "don" ++ apos ++ "t want", "hate", "dislike", "not for me", "pass"]

/-! ## Conversation service: signal detectors
(conversation_service.py `_calculate_interest_score_change`, lines 177-325) -/

/-- Lines 190-193: count of matched specific-preference keywords. -/
def specificPrefsCount (message : String) : Nat :=
  (specific_preference_keywords.filter
    (fun k => strContains (pyLower message) k)).length

/-- Lines 200-204. -/
def dietaryFound (message : String) : Bool :=
  dietary_keywords.any (fun k => strContains (pyLower message) k)

/-- Tail of a budget regex after its literal part: `\$?(\d+)` —
an optional dollar sign followed by at least one digit. -/
def numTail (cs : List Char) : Bool :=
  match cs with
  | '$' :: rest =>
    match rest with
    | c :: _ => c.isDigit
    | [] => false
  | c :: _ => c.isDigit
  | [] => false

/-- Does predicate `p` hold on some suffix of `cs` (regex search)? -/
def scanAny (p : List Char → Bool) : List Char → Bool
  | [] => p []
  | c :: rest => p (c :: rest) || scanAny p rest

/-- Lines 211-220: `budget_patterns` regex search — one of the literal
phrases followed by `\$?(\d+)`, or a bare `\$(\d+)`. -/
def budgetMentioned (message : String) : Bool :=
  let cs := (pyLower message).data
  (["under ", "below ", "less than ", "around ", "about "].any fun lit =>
    scanAny (fun s => lit.data.isPrefixOf s && numTail (s.drop lit.length)) cs)
  || scanAny (fun s =>
       match s with
       | '$' :: c :: _ => c.isDigit
       | _ => false) cs

/-- Lines 227-231. -/
def moodFound (message : String) : Bool :=
  mood_keywords.any (fun k => strContains (pyLower message) k)

/-- Lines 238-242. -/
def questionFound (message : String) : Bool :=
  question_keywords.any (fun k => strContains (pyLower message) k)

/-- Lines 249-252: count of matched enthusiasm keywords. -/
def enthusiasmCount (message : String) : Nat :=
  (enthusiasm_keywords.filter (fun k => strContains (pyLower message) k)).length

/-- Lines 264-268. -/
def priceInquiryFound (message : String) : Bool :=
  price_inquiry_patterns.any (fun k => strContains (pyLower message) k)

/-- Lines 275-279. -/
def orderIntentFound (message : String) : Bool :=
  order_intent_keywords.any (fun k => strContains (pyLower message) k)

/-- Lines 288-292. -/
def hesitationFound (message : String) : Bool :=
  hesitation_keywords.any (fun k => strContains (pyLower message) k)

/-- Lines 299-303: a budget-concern keyword together with `too` or
`expensive` somewhere in the message. -/
def budgetConcernFound (message : String) : Bool :=
  budget_concern_keywords.any (fun k =>
    strContains (pyLower message) k &&
    (strContains (pyLower message) "too" || strContains (pyLower message) "expensive"))

/-- Lines 315-319. -/
def rejectionFound (message : String) : Bool :=
  rejection_patterns.any (fun k => strContains (pyLower message) k)

/-- Function `_calculate_interest_score_change` (lines 177-325): raw score delta and
the ordered engagement-factor descriptions. -/
def calcInterestScoreChange (message : String) : Int × List String :=
  let p1 : Int × List String :=
    if specificPrefsCount message > 0 then
      (ENGAGEMENT_FACTORS "specific_preferences",
       ["Specific preferences mentioned (" ++ toString (specificPrefsCount message)
         ++ " detected)"])
    else (0, [])
  let p2 : Int × List String :=
    if dietaryFound message then
      (ENGAGEMENT_FACTORS "dietary_restrictions", ["Dietary restrictions mentioned"])
    else (0, [])
  let p3 : Int × List String :=
    if budgetMentioned message then
      (ENGAGEMENT_FACTORS "budget_mention", ["Budget mentioned"])
    else (0, [])
  let p4 : Int × List String :=
    if moodFound message then
      (ENGAGEMENT_FACTORS "mood_indication", ["Mood/feeling indicated"])
    else (0, [])
  let p5 : Int × List String :=
    if questionFound message || strContains message "?" then
      (ENGAGEMENT_FACTORS "question_asking", ["Question asked"])
    else (0, [])
  let p6 : Int × List String :=
    if enthusiasmCount message > 0 then
      (ENGAGEMENT_FACTORS "enthusiasm_words",
       ["Enthusiasm detected (" ++ toString (enthusiasmCount message)
         ++ " positive words)"])
    else (0, [])
  let p7 : Int × List String :=
    if priceInquiryFound message then
      (ENGAGEMENT_FACTORS "price_inquiry", ["Price inquiry detected"])
    else (0, [])
  let p8 : Int × List String :=
    if orderIntentFound message then
      (ENGAGEMENT_FACTORS "order_intent", ["Order intent detected"])
    else (0, [])
  let p9 : Int × List String :=
    if hesitationFound message then
      (NEGATIVE_FACTORS "hesitation", ["Hesitation detected (-10)"])
    else (0, [])
  let p10 : Int × List String :=
    if budgetConcernFound message then
      (NEGATIVE_FACTORS "budget_concern", ["Budget concern detected (-15)"])
    else (0, [])
  let p11 : Int × List String :=
    if rejectionFound message then
      (NEGATIVE_FACTORS "rejection", ["Rejection detected (-25)"])
    else (0, [])
  (p1.1 + p2.1 + p3.1 + p4.1 + p5.1 + p6.1 + p7.1 + p8.1 + p9.1 + p10.1 + p11.1,
   p1.2 ++ p2.2 ++ p3.2 ++ p4.2 ++ p5.2 ++ p6.2 ++ p7.2 ++ p8.2 ++ p9.2
     ++ p10.2 ++ p11.2)

/-! ## Conversation service: preference extraction and message processing -/

/-- The dict returned by `_extract_preferences` (lines 327-365). -/
structure ExtractedPrefs where
  specific_prefs : List String
  dietary : List String
  moods : List String
deriving DecidableEq

/-- Table `mood_map` (lines 346-353). -/
def mood_map : List (String × List String) :=
  [("adventurous", ["adventurous", "adventure", "try something new"]),
   ("comfort", ["comfort", "cozy", "familiar"]),
   ("healthy", ["healthy", "light", "fresh"]),
   ("indulgent", ["indulgent", "rich", "treat myself"]),
   ("quick", ["quick", "fast", "hurry"]),
   ("fancy", ["fancy", "special", "gourmet"])]

/-- Function `_extract_preferences` (lines 327-365). -/
def extractPreferences (message : String) : ExtractedPrefs :=
  let ml := pyLower message
  { specific_prefs := specific_preference_keywords.filter (fun k => strContains ml k),
    dietary := dietary_keywords.filter (fun k => strContains ml k),
    moods := (mood_map.filter (fun mk => mk.2.any (fun k => strContains ml k))).map
      (fun mk => mk.1) }

/-- Budget hint as parsed from a message or stored on a conversation
(`"under $X"` / `"around $X"`, recommendation_engine.py lines 69-86). -/
inductive Budget where
  | under (x : ℚ)
  | around (x : ℚ)
deriving DecidableEq

/-- Conversation state used by the engine (models.py `Conversation`
restricted to the fields the scoring code touches; the service creates the
list fields as `[]` and the score as `0`, conversation_service.py 99-105). -/
structure Conversation where
  user_preferences : List String
  dietary_restrictions : List String
  mood_tags : List String
  interest_score : Int
  budget_range : Option Budget
deriving DecidableEq

/-- Fresh conversation (conversation_service.py lines 99-105). -/
def newConversation : Conversation :=
  { user_preferences := []
    dietary_restrictions := []
    mood_tags := []
    interest_score := 0
    budget_range := none }

/-- The scoring-relevant part of the response dict of `process_message`
(lines 164-171). -/
structure MessageResult where
  interest_score : Int
  interest_score_change : Int
  engagement_factors : List String
deriving DecidableEq

/-- The pure core of `process_message` (lines 111-171): score update with
clamping, preference merging, and the returned scoring fields.  The
database round-trips, the LLM response and the recommendation call are
external effects and are not part of the state transition modelled here. -/
def processMessageCore (conversation : Conversation) (message : String) :
    Conversation × MessageResult :=
  let score_change := (calcInterestScoreChange message).1
  let engagement_factors := (calcInterestScoreChange message).2
  let new_score := max 0 (min 100 (conversation.interest_score + score_change))
  let prefs := extractPreferences message
  let conv' : Conversation :=
    { conversation with
      interest_score := new_score
      dietary_restrictions := pyMergeList conversation.dietary_restrictions prefs.dietary
      mood_tags := pyMergeList conversation.mood_tags prefs.moods
      user_preferences := pyMergeList conversation.user_preferences prefs.specific_prefs }
  (conv',
   { interest_score := new_score
     interest_score_change := score_change
     engagement_factors := engagement_factors })

/-- A whole session: fold `process_message` over a message sequence,
starting from a fresh conversation. -/
def runConversation (messages : List String) : Conversation :=
  messages.foldl (fun c m => (processMessageCore c m).1) newConversation

/-! ## Recommendation engine: data model
(models.py `Product`, restricted to the fields the engine reads) -/

/-- A catalog product (models.py lines 9-29).  JSON list columns are
nullable, numeric columns are nullable; prices and scores are modelled
as `ℚ`. -/
structure Product where
  product_id : String
  name : String
  category : String
  description : String
  ingredients : Option (List String)
  price : ℚ
  dietary_tags : Option (List String)
  mood_tags : Option (List String)
  allergens : Option (List String)
  popularity_score : Option ℚ
  spice_level : Option ℚ
  chef_special : Bool
  limited_time : Bool
deriving DecidableEq

/-- The preference dict returned by
`extract_food_preferences_from_message` (recommendation_engine.py
lines 113-118); this embedding takes it as the already-extracted input of
the pipeline. -/
structure Prefs where
  categories : List String
  budget : Option Budget
  dietary : List String
  moods : List String
deriving DecidableEq

/-- Table `self.category_keywords` (recommendation_engine.py lines 22-33). -/
def category_keywords (category : String) : List String :=
  if category = "burgers" then
    ["burger", "hamburger", "cheeseburger", "beef burger", "chicken burger"]
  else if category = "pizza" then
    ["pizza", "margherita", "pepperoni", "cheese pizza"]
  else if category = "tacos" then
    ["taco", "burrito", "quesadilla", "mexican"]
  else if category = "desserts" then
    ["dessert", "cake", "ice cream", "cookie", "sweet", "chocolate", "pie"]
  else if category = "salads" then
    ["salad", "caesar", "garden", "healthy", "greens"]
  else if category = "drinks" then
    ["drink", "beverage", "soda", "juice", "coffee", "tea"]
  else if category = "sandwiches" then
    ["sandwich", "sub", "wrap", "panini"]
  else if category = "pasta" then
    ["pasta", "spaghetti", "fettuccine", "lasagna", "ravioli"]
  else if category = "chicken" then
    ["chicken", "wings", "nuggets", "fried chicken"]
  else if category = "seafood" then
    ["fish", "shrimp", "salmon", "seafood", "lobster"]
  else []

/-- Table `self.dietary_exclusions` (recommendation_engine.py lines 36-44).
Looked up with `.get(restriction, [])`: the key is used verbatim,
case-sensitively, exactly as in the source. -/
def dietary_exclusions (restriction : String) : List String :=
  if restriction = "vegetarian" then
    ["beef", "pork", "chicken", "turkey", "fish", "seafood", "meat",
     "bacon", "ham", "sausage"]
  else if restriction = "vegan" then
    ["beef", "pork", "chicken", "turkey", "fish", "seafood", "meat",
     "dairy", "cheese", "milk", "butter", "cream", "egg", "honey"]
  else if restriction = "gluten-free" then
    ["wheat", "gluten", "bread", "pasta", "flour", "barley", "rye"]
  else if restriction = "dairy-free" then
    ["milk", "cheese", "butter", "cream", "yogurt", "dairy"]
  else if restriction = "keto" then
    ["bread", "pasta", "rice", "potato", "sugar", "flour"]
  else if restriction = "low-carb" then
    ["bread", "pasta", "rice", "potato", "sugar", "flour", "carbs"]
  else []

/-! ## Recommendation engine: strict dietary filter
(`_strict_dietary_filter`, recommendation_engine.py lines 120-156) -/

/-- The lowered concatenation of product name, description and joined
ingredient list (lines 136 and 384). -/
def productText (product : Product) : String :=
  pyLower (product.name ++ " " ++ product.description ++ " "
    ++ String.intercalate " " (pyOrL product.ingredients))

/-- One iteration of the per-restriction loop body of
`_strict_dietary_filter` (lines 130-151): does `product` survive the
single restriction `restriction`?  The tag-membership test lowercases both
sides; the exclusion lookup and the strict vegetarian/vegan default use
the restriction verbatim. -/
def restrictionPasses (product : Product) (restriction : String) : Bool :=
  let product_dietary_tags := (pyOrL product.dietary_tags).map pyLower
  if pyLower restriction ∈ product_dietary_tags then true
  else if (dietary_exclusions restriction).any
      (fun exclusion => strContains (productText product) exclusion) then false
  else if restriction = "vegetarian" || restriction = "vegan" then false
  else true

/-- Function `_strict_dietary_filter` (lines 120-156): keep the products that pass
every restriction; with no restrictions return the list unchanged. -/
def strictDietaryFilter (products : List Product)
    (dietary_restrictions : List String) : List Product :=
  if dietary_restrictions.isEmpty then products
  else products.filter (fun p => dietary_restrictions.all (restrictionPasses p))

/-! ## Recommendation engine: scoring
(`_calculate_recommendation_score`, lines 315-419) -/

/-- Python `round(x, 2)` on the final score (line 419). -/
def round2 (q : ℚ) : ℚ :=
  (round (q * 100) : ℚ) / 100

/-- The STEP-2 / score category match test (lines 210-212 and 327-328):
category name contained in the product category, or a category keyword
contained in the product name. -/
def categoryMatches (category : String) (product : Product) : Bool :=
  strContains (pyLower product.category) (pyLower category)
  || (category_keywords category).any
       (fun keyword => strContains (pyLower product.name) keyword)

/-- Sub-score `current_request_score` (lines 322-348): +80 for a category match
(at most once), +50 / -30 per mentioned dietary tag met / unmet, +15 per
matched mood, clamped to [0, 100]. -/
def currentRequestScore (product : Product) (prefs : Prefs) : ℚ :=
  let catScore : ℚ :=
    if prefs.categories.any (fun c => categoryMatches c product) then 80 else 0
  let dietScore : ℚ :=
    (prefs.dietary.map (fun dietary =>
      if pyLower dietary ∈ (pyOrL product.dietary_tags).map pyLower then (50 : ℚ)
      else -30)).sum
  let moodScore : ℚ :=
    (prefs.moods.map (fun mood =>
      if mood ∈ pyOrL product.mood_tags then (15 : ℚ) else 0)).sum
  max 0 (min (catScore + dietScore + moodScore) 100)

/-- Sub-score `preference_score` (lines 353-362): 20 per conversation preference
found in the product name/description (substring) or tags (exact),
capped at 100. -/
def preferenceScoreOf (c : Conversation) (product : Product) : ℚ :=
  let preference_matches := (c.user_preferences.filter (fun pref =>
    strContains (pyLower product.name) (pyLower pref)
    || strContains (pyLower product.description) (pyLower pref)
    || pref ∈ pyOrL product.dietary_tags
    || pref ∈ pyOrL product.mood_tags)).length
  min ((preference_matches : ℚ) * 20) 100

/-- Sub-score `mood_score` (lines 366-368): 30 per element of the set intersection
of conversation and product mood tags, capped at 100. -/
def moodScoreOf (c : Conversation) (product : Product) : ℚ :=
  let mood_matches :=
    (c.mood_tags.dedup.filter (fun m => m ∈ pyOrL product.mood_tags)).length
  min ((mood_matches : ℚ) * 30) 100

/-- Sub-score `dietary_score` (lines 372-391): 100, dropping to 0 if some
conversation restriction is among the product allergens, or its tag is
missing and an exclusion term occurs in the product text. -/
def dietaryCompatScore (c : Conversation) (product : Product) : ℚ :=
  if c.dietary_restrictions.any (fun restriction =>
      decide (restriction ∈ pyOrL product.allergens)
      || (!decide (pyLower restriction ∈ (pyOrL product.dietary_tags).map pyLower)
          && (dietary_exclusions restriction).any
               (fun exclusion => strContains (productText product) exclusion)))
  then 0 else 100

/-- Sub-score `budget_score` (lines 396-411): 100 within an `under` cap, else
decayed by 10 per dollar over; for `around`, 100 minus 5 per dollar of
absolute difference; floored at 0. -/
def budgetFitScore (budget_range : Option Budget) (price : ℚ) : ℚ :=
  match budget_range with
  | none => 100
  | some (Budget.under budget_limit) =>
    if price ≤ budget_limit then 100
    else max 0 (100 - (price - budget_limit) * 10)
  | some (Budget.around target_price) =>
    max 0 (100 - |price - target_price| * 5)

/-- Python `a or b` on the optional budget hint (line 397): the
current-message hint wins over the stored conversation one. -/
def pyOrBudget (a b : Option Budget) : Option Budget :=
  match a with
  | some x => some x
  | none => b

/-- Function `_calculate_recommendation_score` (lines 315-419) with the weights of
`self.recommendation_weights` (lines 12-19): current request 0.4,
preferences 0.2, mood 0.15, dietary 0.15, budget 0.05, popularity 0.05;
the conversation-dependent terms are skipped when there is no
conversation; popularity defaults to 50 when falsy. -/
def calcRecommendationScore (product : Product) (conversation : Option Conversation)
    (prefs : Prefs) : ℚ :=
  let base := currentRequestScore product prefs * 0.4
  let convPart : ℚ :=
    match conversation with
    | none => 0
    | some c =>
      preferenceScoreOf c product * 0.2
      + moodScoreOf c product * 0.15
      + dietaryCompatScore c product * 0.15
      + budgetFitScore (pyOrBudget prefs.budget c.budget_range) product.price * 0.05
  let popPart := pyOrQ product.popularity_score 50 * 0.05
  round2 (base + convPart + popPart)

/-- Function `_get_recommendation_reasons` (lines 421-475), truncated to 3. -/
def recommendationReasons (product : Product) (conversation : Option Conversation)
    (prefs : Prefs) : List String :=
  let r1 : List String :=
    match prefs.categories.find? (fun category =>
        strContains (pyLower product.category) (pyLower category)) with
    | some category => ["Perfect " ++ category ++ " match for your request"]
    | none => []
  let r2 : List String :=
    (prefs.dietary.filter (fun dietary =>
      pyLower dietary ∈ (pyOrL product.dietary_tags).map pyLower)).map
      (fun dietary => "✅ Meets your " ++ dietary ++ " requirements")
  let r3 : List String :=
    (prefs.moods.filter (fun mood => mood ∈ pyOrL product.mood_tags)).map
      (fun mood => "Great for a " ++ mood ++ " meal")
  let r4 : List String :=
    match conversation with
    | none => []
    | some c =>
      let prefReason : List String :=
        match c.user_preferences.find? (fun pref =>
            strContains (pyLower product.name) (pyLower pref)
            || strContains (pyLower product.description) (pyLower pref)) with
        | some pref => ["Matches your preference for " ++ pref]
        | none => []
      let budgetReason : List String :=
        match pyOrBudget prefs.budget c.budget_range with
        | some (Budget.under budget_limit) =>
          if product.price ≤ budget_limit then
            ["Within your $" ++ toString budget_limit ++ " budget"]
          else []
        | _ => []
      prefReason ++ budgetReason
  let r5 : List String :=
    (if product.chef_special then ["Chef" ++ apos ++ "s special recommendation"] else [])
    ++ (if product.limited_time then ["Limited time offer"] else [])
    ++ (match product.popularity_score with
        | some s => if s > 80 then ["Highly popular choice"] else []
        | none => [])
  (r1 ++ r2 ++ r3 ++ r4 ++ r5).take 3

/-! ## Recommendation engine: the pipeline
(`get_personalized_recommendations`, lines 158-313) -/

/-- A scored candidate: the `{'product': ..., 'score': ..., 'reasons': ...}`
dict of STEP 4 (lines 239-243). -/
structure ScoredRec where
  product : Product
  score : ℚ
  reasons : List String
deriving DecidableEq

/-- A formatted response entry (lines 298-313). -/
structure RecOut where
  product_id : String
  name : String
  category : String
  description : String
  price : ℚ
  dietary_tags : Option (List String)
  mood_tags : Option (List String)
  spice_level : Option ℚ
  popularity_score : Option ℚ
  recommendation_score : ℚ
  reasons : List String
deriving DecidableEq

/-- Response formatting (lines 298-313). -/
def formatRec (rec : ScoredRec) : RecOut :=
  { product_id := rec.product.product_id
    name := rec.product.name
    category := rec.product.category
    description := rec.product.description
    price := rec.product.price
    dietary_tags := rec.product.dietary_tags
    mood_tags := rec.product.mood_tags
    spice_level := rec.product.spice_level
    popularity_score := rec.product.popularity_score
    recommendation_score := rec.score
    reasons := rec.reasons }

/-- The `no_match` sentinel entry (lines 191-203). -/
def sentinelRec (all_dietary_restrictions : List String) : RecOut :=
  { product_id := "no_match"
    name := "No suitable products found"
    category := "Notice"
    description := "Sorry, no products match your "
      ++ String.intercalate ", " all_dietary_restrictions ++ " requirements."
    price := 0
    dietary_tags := some all_dietary_restrictions
    mood_tags := some []
    spice_level := some 0
    popularity_score := some 0
    recommendation_score := 0
    reasons := ["Strict " ++ String.intercalate ", " all_dietary_restrictions
      ++ " filtering applied"] }

/-- Lines 176-180: the current-message dietary mentions merged with the
conversation history ones. -/
def allDietaryRestrictions (conversation : Option Conversation) (prefs : Prefs) :
    List String :=
  match conversation with
  | none => prefs.dietary
  | some c => pyMergeList prefs.dietary c.dietary_restrictions

/-- STEP 2 (lines 206-215): filter by mentioned categories, keeping
everything when no product matches. -/
def categoryStep (products : List Product) (categories : List String) : List Product :=
  match categories with
  | [] => products
  | _ =>
    let filtered := products.filter (fun p =>
      categories.any (fun category => categoryMatches category p))
    if filtered.isEmpty then products else filtered

/-- The STEP-3 budget predicate (lines 218-227). -/
def budgetOk (b : Budget) (price : ℚ) : Bool :=
  match b with
  | Budget.under max_price => decide (price ≤ max_price)
  | Budget.around target_price =>
    decide (target_price * 0.8 ≤ price) && decide (price ≤ target_price * 1.2)

/-- STEP 3 (lines 217-229): hard budget pre-filter on the candidates. -/
def budgetStep (products : List Product) (budget : Option Budget) : List Product :=
  match budget with
  | none => products
  | some b => products.filter (fun p => budgetOk b p.price)

/-- STEP 4 (lines 231-243): score the surviving candidates, with a flat
+20 bonus when dietary restrictions are active. -/
def primaryScored (products : List Product) (conversation : Option Conversation)
    (prefs : Prefs) (all_dietary_restrictions : List String) : List ScoredRec :=
  (budgetStep (categoryStep products prefs.categories) prefs.budget).map
    (fun product =>
      { product := product
        score := calcRecommendationScore product conversation prefs
          + (if all_dietary_restrictions.isEmpty then 0 else 20)
        reasons := recommendationReasons product conversation prefs })

/-- Lines 246-247: sort by score descending (stable) and truncate. -/
def primaryTop (catalog : List Product) (conversation : Option Conversation)
    (prefs : Prefs) (limit : Nat) : List ScoredRec :=
  let allD := allDietaryRestrictions conversation prefs
  let products1 := if allD.isEmpty then catalog else strictDietaryFilter catalog allD
  (sortDescBy (fun r => r.score) (primaryScored products1 conversation prefs allD)).take
    limit

/-- The STEP-5 trigger (line 250): empty ranked list, or every ranked
score below 30. -/
def fallbackTriggered (top_recommendations : List ScoredRec) : Bool :=
  top_recommendations.isEmpty
  || top_recommendations.all (fun rec => decide (rec.score < 30))

/-- Lines 255-261: the fallback catalog query — category `ilike`
containment ordered by popularity descending (SQL `NULL`s last) — with
the dietary filter re-applied. -/
def fallbackProducts (catalog : List Product)
    (all_dietary_restrictions : List String) (category : String) : List Product :=
  let queried := sortDescBy (fun p => (p.popularity_score : WithBot ℚ))
    (catalog.filter (fun p => strContains (pyLower p.category) (pyLower category)))
  if all_dietary_restrictions.isEmpty then queried
  else strictDietaryFilter queried all_dietary_restrictions

/-- Lines 264-272: a fallback candidate with its synthetic score
`(popularity or 50) + 20` and fixed reasons. -/
def fallbackRec (category : String) (product : Product) : ScoredRec :=
  { product := product
    score := pyOrQ product.popularity_score 50 + 20
    reasons := ["Popular " ++ category
        ++ " option that meets your dietary requirements",
      "High customer rating"] }

/-- Function `get_personalized_recommendations` (lines 158-313), as a function of
the already-extracted current-message preferences.  The recommendation
logging (lines 274-295) is a database side effect with no influence on
the returned value and is omitted. -/
def getPersonalizedRecommendations (catalog : List Product)
    (conversation : Option Conversation) (prefs : Prefs) (limit : Nat) :
    List RecOut :=
  let allD := allDietaryRestrictions conversation prefs
  if !allD.isEmpty && (strictDietaryFilter catalog allD).isEmpty then
    [sentinelRec allD]
  else
    let top := primaryTop catalog conversation prefs limit
    let final :=
      if fallbackTriggered top then
        match prefs.categories with
        | [] => top
        | category :: _ =>
          let fb := fallbackProducts catalog allD category
          if fb.isEmpty then top
          else (fb.take limit).map (fallbackRec category)
      else top
    final.map formatRec

/-! ## Sample inputs used by witnesses and counterexamples -/

/-- A product explicitly tagged vegetarian. -/
def taggedVeggieBurger : Product :=
  { product_id := "p-veg", name := "garden burger", category := "burgers",
    description := "a garden patty", ingredients := some ["lettuce"], price := 8,
    dietary_tags := some ["vegetarian"], mood_tags := some [], allergens := some [],
    popularity_score := some 60, spice_level := some 0,
    chef_special := false, limited_time := false }

/-- An untagged product whose description mentions beef. -/
def beefStewBowl : Product :=
  { product_id := "p-beef", name := "bowl", category := "bowls",
    description := "hearty beef stew", ingredients := some [], price := 9,
    dietary_tags := some [], mood_tags := some [], allergens := some [],
    popularity_score := some 55, spice_level := some 1,
    chef_special := false, limited_time := false }

/-- An untagged product with no exclusion term anywhere in its text. -/
def plainBowl : Product :=
  { product_id := "p-plain", name := "tomato bowl", category := "bowls",
    description := "a tomato bowl", ingredients := some ["tomato"], price := 7,
    dietary_tags := some [], mood_tags := some [], allergens := some [],
    popularity_score := some 50, spice_level := some 0,
    chef_special := false, limited_time := false }

/-- A product whose dietary tag is in upper case. -/
def shoutyVeganBowl : Product :=
  { product_id := "p-shout", name := "green bowl", category := "bowls",
    description := "a green bowl", ingredients := some [], price := 7,
    dietary_tags := some ["VEGAN"], mood_tags := some [], allergens := some [],
    popularity_score := some 50, spice_level := some 0,
    chef_special := false, limited_time := false }

/-- Pizza-category product with popularity stored as `0`, exercising the
Python falsy-`or` default in the fallback score. -/
def zeroPopPie : Product :=
  { product_id := "p-zero", name := "tomato pie", category := "pizza",
    description := "a tomato pie", ingredients := some ["tomato"], price := 5,
    dietary_tags := some [], mood_tags := some [], allergens := some [],
    popularity_score := some 0, spice_level := some 1,
    chef_special := false, limited_time := false }

/-- Like `zeroPopPie` but with a non-zero stored popularity. -/
def lowPopPie : Product :=
  { product_id := "p-low", name := "tomato pie", category := "pizza",
    description := "a tomato pie", ingredients := some ["tomato"], price := 5,
    dietary_tags := some [], mood_tags := some [], allergens := some [],
    popularity_score := some 40, spice_level := some 1,
    chef_special := false, limited_time := false }

/-- A cheap pizza with no stored popularity. -/
def budgetPizza : Product :=
  { product_id := "p-pz", name := "cheese pizza", category := "pizza",
    description := "a cheese pizza", ingredients := some ["cheese"], price := 5,
    dietary_tags := some [], mood_tags := some [], allergens := some [],
    popularity_score := none, spice_level := some 0,
    chef_special := false, limited_time := false }

/-- Current-message preferences driving the pipeline into the weak-score
fallback: a mentioned category plus three unmet (non-strict) dietary
restrictions. -/
def fallbackPrefs : Prefs :=
  { categories := ["pizza"], budget := none,
    dietary := ["keto", "dairy-free", "gluten-free"], moods := [] }

/-- Current-message preferences with only a vegan restriction. -/
def veganPrefs : Prefs :=
  { categories := [], budget := none, dietary := ["vegan"], moods := [] }

/-- Current-message preferences with a category and an `under $10` hint. -/
def budgetPizzaPrefs : Prefs :=
  { categories := ["pizza"], budget := some (Budget.under 10),
    dietary := [], moods := [] }

/-- A conversation that already recorded the preferences of the message
`"spicy"`. -/
def spicyConversation : Conversation :=
  { user_preferences := ["spicy"], dietary_restrictions := [], mood_tags := [],
    interest_score := 40, budget_range := none }

/-! ## Helper lemmas -/

lemma pyMergeList_nil (old : List String) : pyMergeList old [] = old := rfl

lemma pyMergeList_cons (old : List String) (d : String) (new : List String) :
    pyMergeList old (d :: new)
      = pyMergeList (if d ∈ old then old else old ++ [d]) new := rfl

lemma mem_pyMergeList_of_mem (old new : List String) (x : String)
    (h : x ∈ old) : x ∈ pyMergeList old new := by
  induction new generalizing old with
  | nil => simpa [pyMergeList_nil] using h
  | cons d new ih =>
    rw [pyMergeList_cons]
    by_cases hd : d ∈ old
    · simpa [hd] using ih old h
    · simp only [hd, if_false]
      exact ih (old ++ [d]) (List.mem_append_left _ h)

lemma pyMergeList_eq_of_subset (old new : List String)
    (h : ∀ x ∈ new, x ∈ old) : pyMergeList old new = old := by
  induction new with
  | nil => rfl
  | cons d new ih =>
    rw [pyMergeList_cons]
    have hd : d ∈ old := h d (List.mem_cons_self d new)
    simp only [hd, if_true]
    exact ih (fun x hx => h x (List.mem_cons_of_mem d hx))

lemma mem_insertDescBy {α β : Type} [LinearOrder β] (key : α → β) (a x : α)
    (l : List α) : x ∈ insertDescBy key a l ↔ x = a ∨ x ∈ l := by
  induction l with
  | nil => simp [insertDescBy]
  | cons b bs ih =>
    by_cases h : key a < key b
    · simp only [insertDescBy, h, if_true, List.mem_cons, ih]
      tauto
    · simp only [insertDescBy, h, if_false, List.mem_cons]

lemma mem_sortDescBy {α β : Type} [LinearOrder β] (key : α → β) (x : α)
    (l : List α) : x ∈ sortDescBy key l ↔ x ∈ l := by
  induction l with
  | nil => simp [sortDescBy]
  | cons a as ih =>
    show x ∈ insertDescBy key a (sortDescBy key as) ↔ _
    rw [mem_insertDescBy, ih, List.mem_cons]

/-- Interest-score bounds are preserved along any message sequence. -/
lemma foldl_interest_score_bounds (messages : List String) (c : Conversation)
    (h0 : 0 ≤ c.interest_score) (h1 : c.interest_score ≤ 100) :
    0 ≤ (messages.foldl (fun c m => (processMessageCore c m).1) c).interest_score ∧
    (messages.foldl (fun c m => (processMessageCore c m).1) c).interest_score ≤ 100 := by
  induction messages generalizing c with
  | nil => exact ⟨h0, h1⟩
  | cons m ms ih =>
    simp only [List.foldl_cons]
    have hstep : ((processMessageCore c m).1).interest_score
        = max 0 (min 100 (c.interest_score + (calcInterestScoreChange m).1)) := rfl
    exact ih _ (by omega) (by omega)

end FoodieBot

namespace FoodieBot

/-! ## Claim theorems -/

/-- C1: for every sequence of processed messages the conversation's
interest score stays in [0, 100] after every message; each update sets
the new score to clamp(old + raw delta, 0, 100) and a fresh conversation
starts at 0. -/
theorem interest_score_always_clamped :
    newConversation.interest_score = 0 ∧
    (∀ (conversation : Conversation) (message : String),
      ((processMessageCore conversation message).1).interest_score =
        max 0 (min 100 (conversation.interest_score
          + (calcInterestScoreChange message).1))) ∧
    (∀ messages : List String,
      0 ≤ (runConversation messages).interest_score ∧
      (runConversation messages).interest_score ≤ 100) := by
  refine ⟨rfl, fun conversation message => rfl, fun messages => ?_⟩
  exact foldl_interest_score_bounds messages newConversation (by decide) (by decide)

/-- C4 counterexample: on the message "maybe" from a fresh conversation
the raw delta is -10 but clamping holds the score at 0, so the reported
`interest_score_change` (-10) differs from the applied delta (0): the
claim that the reported change equals the post-clamp minus pre-clamp
delta is false. -/
theorem reported_change_ignores_clamping :
    (processMessageCore newConversation "maybe").2.interest_score_change = -10 ∧
    ((processMessageCore newConversation "maybe").1).interest_score
      - newConversation.interest_score = 0 ∧
    (-10 : Int) ≠ 0 := by
  exact ⟨by decide, by decide, by decide⟩

/-- C4 (amended): the score-change value returned by message processing
is the raw factor sum; it equals the clamped applied delta (post-clamp
minus pre-clamp) exactly when no clamping occurs, i.e. when the old
score plus the raw delta already lies in [0, 100]. -/
theorem reported_change_eq_applied_without_clamping
    (conversation : Conversation) (message : String)
    (hlow : 0 ≤ conversation.interest_score + (calcInterestScoreChange message).1)
    (hhigh : conversation.interest_score + (calcInterestScoreChange message).1 ≤ 100) :
    (processMessageCore conversation message).2.interest_score_change =
      ((processMessageCore conversation message).1).interest_score
        - conversation.interest_score := by
  have h1 : (processMessageCore conversation message).2.interest_score_change
      = (calcInterestScoreChange message).1 := rfl
  have h2 : ((processMessageCore conversation message).1).interest_score
      = max 0 (min 100 (conversation.interest_score
          + (calcInterestScoreChange message).1)) := rfl
  omega

theorem reported_change_eq_applied_without_clamping_witness :
    (processMessageCore newConversation "amazing").2.interest_score_change =
      ((processMessageCore newConversation "amazing").1).interest_score
        - newConversation.interest_score :=
  reported_change_eq_applied_without_clamping newConversation "amazing"
    (by decide) (by decide)

/-- C8: a message that contains "maybe" and "amazing" and triggers no
other detection factor gets the raw pre-clamp delta -2, the sum of the
hesitation weight -10 and the enthusiasm weight +8. -/
theorem maybe_amazing_net_delta (message : String)
    (hmaybe : strContains (pyLower message) "maybe" = true)
    (hamazing : strContains (pyLower message) "amazing" = true)
    (h1 : specificPrefsCount message = 0)
    (h2 : dietaryFound message = false)
    (h3 : budgetMentioned message = false)
    (h4 : moodFound message = false)
    (h5 : questionFound message = false)
    (h6 : strContains message "?" = false)
    (h7 : priceInquiryFound message = false)
    (h8 : orderIntentFound message = false)
    (h9 : budgetConcernFound message = false)
    (h10 : rejectionFound message = false) :
    (calcInterestScoreChange message).1 = -2 := by
  have hh : hesitationFound message = true := by
    unfold hesitationFound hesitation_keywords
    simp only [List.any_cons, hmaybe, Bool.true_or]
  have he : 0 < enthusiasmCount message := by
    have hmem : "amazing" ∈ enthusiasm_keywords.filter
        (fun k => strContains (pyLower message) k) :=
      List.mem_filter.2 ⟨by simp [enthusiasm_keywords], hamazing⟩
    exact List.length_pos.2 (List.ne_nil_of_mem hmem)
  simp only [calcInterestScoreChange, h1, h2, h3, h4, h5, h6, h7, h8, h9, h10,
    hh, if_true, if_false, Bool.false_or, Bool.or_self, lt_irrefl,
    Nat.lt_irrefl, he, gt_iff_lt]
  decide

theorem maybe_amazing_net_delta_witness :
    (calcInterestScoreChange "maybe amazing").1 = -2 :=
  maybe_amazing_net_delta "maybe amazing" (by decide) (by decide) (by decide)
    (by decide) (by decide) (by decide) (by decide) (by decide) (by decide)
    (by decide) (by decide) (by decide)

/-- C9: merging extracted preferences into conversation state behaves as
set union: the post-state collections contain the pre-state collections,
and when every detected preference is already recorded the collections
are left unchanged. -/
theorem preference_merge_is_union (conversation : Conversation) (message : String) :
    (∀ x ∈ conversation.user_preferences,
      x ∈ ((processMessageCore conversation message).1).user_preferences) ∧
    (∀ x ∈ conversation.dietary_restrictions,
      x ∈ ((processMessageCore conversation message).1).dietary_restrictions) ∧
    (∀ x ∈ conversation.mood_tags,
      x ∈ ((processMessageCore conversation message).1).mood_tags) ∧
    ((∀ x ∈ (extractPreferences message).specific_prefs,
        x ∈ conversation.user_preferences) →
      (∀ x ∈ (extractPreferences message).dietary,
        x ∈ conversation.dietary_restrictions) →
      (∀ x ∈ (extractPreferences message).moods,
        x ∈ conversation.mood_tags) →
      ((processMessageCore conversation message).1).user_preferences
          = conversation.user_preferences ∧
      ((processMessageCore conversation message).1).dietary_restrictions
          = conversation.dietary_restrictions ∧
      ((processMessageCore conversation message).1).mood_tags
          = conversation.mood_tags) := by
  have hu : ((processMessageCore conversation message).1).user_preferences
      = pyMergeList conversation.user_preferences
          (extractPreferences message).specific_prefs := rfl
  have hd : ((processMessageCore conversation message).1).dietary_restrictions
      = pyMergeList conversation.dietary_restrictions
          (extractPreferences message).dietary := rfl
  have hm : ((processMessageCore conversation message).1).mood_tags
      = pyMergeList conversation.mood_tags (extractPreferences message).moods := rfl
  refine ⟨?_, ?_, ?_, ?_⟩
  · intro x hx; rw [hu]; exact mem_pyMergeList_of_mem _ _ _ hx
  · intro x hx; rw [hd]; exact mem_pyMergeList_of_mem _ _ _ hx
  · intro x hx; rw [hm]; exact mem_pyMergeList_of_mem _ _ _ hx
  · intro hsu hsd hsm
    exact ⟨by rw [hu]; exact pyMergeList_eq_of_subset _ _ hsu,
      by rw [hd]; exact pyMergeList_eq_of_subset _ _ hsd,
      by rw [hm]; exact pyMergeList_eq_of_subset _ _ hsm⟩

theorem preference_merge_is_union_witness :
    ((processMessageCore spicyConversation "spicy").1).user_preferences
        = spicyConversation.user_preferences ∧
    ((processMessageCore spicyConversation "spicy").1).dietary_restrictions
        = spicyConversation.dietary_restrictions ∧
    ((processMessageCore spicyConversation "spicy").1).mood_tags
        = spicyConversation.mood_tags :=
  (preference_merge_is_union spicyConversation "spicy").2.2.2
    (by decide) (by decide) (by decide)

/-- A substring of the (lowered) description is a substring of the full
product text used by the dietary filter. -/
lemma strContains_productText_of_description (p : Product) (pat : String)
    (h : strContains (pyLower p.description) pat = true) :
    strContains (productText p) pat = true := by
  unfold strContains at h ⊢
  rw [decide_eq_true_eq] at h ⊢
  apply h.trans
  unfold productText pyLower
  show (p.description.data.map Char.toLower) <:+: _
  simp only [String.data_append, List.map_append]
  exact ⟨p.name.data.map Char.toLower ++ " ".data.map Char.toLower,
    " ".data.map Char.toLower
      ++ (String.intercalate " " (pyOrL p.ingredients)).data.map Char.toLower,
    by simp [List.append_assoc]⟩

/-- C2: filtering under the lowercase restriction "vegetarian" keeps a
product whose dietary tags contain "vegetarian"; drops a product with no
dietary tags whose description contains "beef"; and for the restrictions
"vegetarian" and "vegan" the absence of the matching tag alone already
drops a product, whatever its text. -/
theorem strict_vegetarian_filter_cases (p : Product) :
    ("vegetarian" ∈ pyOrL p.dietary_tags →
      strictDietaryFilter [p] ["vegetarian"] = [p]) ∧
    (pyOrL p.dietary_tags = [] →
      strContains (pyLower p.description) "beef" = true →
      strictDietaryFilter [p] ["vegetarian"] = []) ∧
    (∀ r : String, (r = "vegetarian" ∨ r = "vegan") →
      pyLower r ∉ (pyOrL p.dietary_tags).map pyLower →
      strictDietaryFilter [p] [r] = []) := by
  refine ⟨?_, ?_, ?_⟩
  · intro h
    have hmem : pyLower "vegetarian" ∈ (pyOrL p.dietary_tags).map pyLower :=
      List.mem_map_of_mem pyLower h
    have hpass : restrictionPasses p "vegetarian" = true := by
      unfold restrictionPasses
      rw [if_pos hmem]
    simp [strictDietaryFilter, hpass]
  · intro htags hbeef
    have htext := strContains_productText_of_description p "beef" hbeef
    have hnot : pyLower "vegetarian" ∉ (pyOrL p.dietary_tags).map pyLower := by
      simp [htags]
    have hexcl : (dietary_exclusions "vegetarian").any
        (fun exclusion => strContains (productText p) exclusion) = true := by
      apply List.any_eq_true.2
      exact ⟨"beef", by simp [dietary_exclusions], htext⟩
    have hfail : restrictionPasses p "vegetarian" = false := by
      unfold restrictionPasses
      rw [if_neg hnot, if_pos hexcl]
    simp [strictDietaryFilter, hfail]
  · intro r hr hnot
    have hpass : restrictionPasses p r = false := by
      unfold restrictionPasses
      rw [if_neg hnot]
      by_cases hexcl : (dietary_exclusions r).any
          (fun exclusion => strContains (productText p) exclusion) = true
      · rw [if_pos hexcl]
      · rw [if_neg hexcl, if_pos]
        rcases hr with h | h <;> simp [h]
    simp [strictDietaryFilter, hpass]

theorem strict_vegetarian_filter_cases_witness :
    strictDietaryFilter [taggedVeggieBurger] ["vegetarian"] = [taggedVeggieBurger] ∧
    strictDietaryFilter [beefStewBowl] ["vegetarian"] = [] ∧
    strictDietaryFilter [plainBowl] ["vegan"] = [] :=
  ⟨(strict_vegetarian_filter_cases taggedVeggieBurger).1 (by decide),
   (strict_vegetarian_filter_cases beefStewBowl).2.1 (by decide) (by decide),
   (strict_vegetarian_filter_cases plainBowl).2.2 "vegan" (Or.inr rfl) (by decide)⟩

/-- C6 counterexample: the same untagged beef-describing product is
dropped when filtering with "vegetarian" but kept when filtering with
"Vegetarian" — the pass/fail decision is not invariant under case
variation of the restriction label, so the claim is false. -/
theorem dietary_filter_case_sensitivity_cex :
    strictDietaryFilter [beefStewBowl] ["vegetarian"] = [] ∧
    strictDietaryFilter [beefStewBowl] ["Vegetarian"] = [beefStewBowl] := by
  exact ⟨by decide, by decide⟩

/-- C6 (amended): varying the case of a restriction label cannot change
the decision for a product whose own dietary-tag set contains the label
up to case — such a product passes under every case variant.  In general
the decision does depend on the label's case, because the exclusion-term
lookup and the strict vegetarian/vegan default use the label verbatim. -/
theorem dietary_filter_tagged_case_insensitive (p : Product) (r1 r2 : String)
    (hcase : pyLower r1 = pyLower r2)
    (htag : pyLower r1 ∈ (pyOrL p.dietary_tags).map pyLower) :
    strictDietaryFilter [p] [r1] = [p] ∧ strictDietaryFilter [p] [r2] = [p] := by
  have htag2 : pyLower r2 ∈ (pyOrL p.dietary_tags).map pyLower := hcase ▸ htag
  have hp1 : restrictionPasses p r1 = true := by
    unfold restrictionPasses
    rw [if_pos htag]
  have hp2 : restrictionPasses p r2 = true := by
    unfold restrictionPasses
    rw [if_pos htag2]
  constructor
  · simp [strictDietaryFilter, hp1]
  · simp [strictDietaryFilter, hp2]

theorem dietary_filter_tagged_case_insensitive_witness :
    strictDietaryFilter [shoutyVeganBowl] ["Vegan"] = [shoutyVeganBowl] ∧
    strictDietaryFilter [shoutyVeganBowl] ["vegan"] = [shoutyVeganBowl] :=
  dietary_filter_tagged_case_insensitive shoutyVeganBowl "Vegan" "vegan"
    (by decide) (by decide)

/-- C7: against a product priced 12, the budget-fit sub-score of the
recommendation score is 80 for the hint "under $10" (100 - (12-10)*10)
and 90 for "around $10" (100 - |12-10|*5), before the 0.05 weight is
applied. -/
theorem budget_fit_sub_scores :
    budgetFitScore (some (Budget.under 10)) 12 = 80 ∧
    budgetFitScore (some (Budget.around 10)) 12 = 90 ∧
    (80 : ℚ) = 100 - (12 - 10) * 10 ∧
    (90 : ℚ) = 100 - |(12 : ℚ) - 10| * 5 := by
  have h1 : budgetFitScore (some (Budget.under 10)) 12 = 80 := by
    simp only [budgetFitScore]
    rw [if_neg (by norm_num), max_eq_right (by norm_num)]
    norm_num
  have h2 : budgetFitScore (some (Budget.around 10)) 12 = 90 := by
    simp only [budgetFitScore]
    rw [abs_of_nonneg (by norm_num : (0:ℚ) ≤ 12 - 10), max_eq_right (by norm_num)]
    norm_num
  refine ⟨h1, h2, by norm_num, ?_⟩
  rw [abs_of_nonneg (by norm_num : (0:ℚ) ≤ 12 - 10)]
  norm_num

/-- C3: whenever the merged dietary restrictions are non-empty and the
strict dietary filter empties the catalog, the pipeline returns exactly
the non-empty sentinel entry, whose product id is "no_match" and whose
description names the unmet restrictions. -/
theorem empty_filter_returns_sentinel (catalog : List Product)
    (conversation : Option Conversation) (prefs : Prefs) (limit : Nat)
    (hne : allDietaryRestrictions conversation prefs ≠ [])
    (hempty : strictDietaryFilter catalog (allDietaryRestrictions conversation prefs)
      = []) :
    getPersonalizedRecommendations catalog conversation prefs limit
        = [sentinelRec (allDietaryRestrictions conversation prefs)] ∧
    (sentinelRec (allDietaryRestrictions conversation prefs)).product_id
        = "no_match" ∧
    (sentinelRec (allDietaryRestrictions conversation prefs)).description
        = "Sorry, no products match your "
          ++ String.intercalate ", " (allDietaryRestrictions conversation prefs)
          ++ " requirements." ∧
    getPersonalizedRecommendations catalog conversation prefs limit ≠ [] := by
  have hmain : getPersonalizedRecommendations catalog conversation prefs limit
      = [sentinelRec (allDietaryRestrictions conversation prefs)] := by
    unfold getPersonalizedRecommendations
    rw [if_pos]
    rw [hempty]
    simp [List.isEmpty_iff, hne]
  exact ⟨hmain, rfl, rfl, by rw [hmain]; exact List.cons_ne_nil _ _⟩

lemma sentinel_cond_false (catalog : List Product)
    (conversation : Option Conversation) (prefs : Prefs)
    (hs : allDietaryRestrictions conversation prefs = []
      ∨ strictDietaryFilter catalog (allDietaryRestrictions conversation prefs) ≠ []) :
    (!(allDietaryRestrictions conversation prefs).isEmpty
      && (strictDietaryFilter catalog
            (allDietaryRestrictions conversation prefs)).isEmpty) = false := by
  rcases hs with h | h
  · simp [h]
  · simp [List.isEmpty_iff, h]

/-- When the sentinel branch and the fallback branch are both inactive,
the pipeline returns the formatted primary ranked list. -/
lemma getRecs_primary (catalog : List Product)
    (conversation : Option Conversation) (prefs : Prefs) (limit : Nat)
    (hs : allDietaryRestrictions conversation prefs = []
      ∨ strictDietaryFilter catalog (allDietaryRestrictions conversation prefs) ≠ [])
    (hf : fallbackTriggered (primaryTop catalog conversation prefs limit) = false) :
    getPersonalizedRecommendations catalog conversation prefs limit
      = (primaryTop catalog conversation prefs limit).map formatRec := by
  unfold getPersonalizedRecommendations
  simp only [sentinel_cond_false catalog conversation prefs hs,
    Bool.false_eq_true, if_false, hf]

/-- With no mentioned category the formatted primary ranked list stands,
whether or not the fallback condition holds. -/
lemma getRecs_no_category (catalog : List Product)
    (conversation : Option Conversation) (prefs : Prefs) (limit : Nat)
    (hs : allDietaryRestrictions conversation prefs = []
      ∨ strictDietaryFilter catalog (allDietaryRestrictions conversation prefs) ≠ [])
    (hc : prefs.categories = []) :
    getPersonalizedRecommendations catalog conversation prefs limit
      = (primaryTop catalog conversation prefs limit).map formatRec := by
  unfold getPersonalizedRecommendations
  simp only [sentinel_cond_false catalog conversation prefs hs,
    Bool.false_eq_true, if_false, hc]
  cases hft : fallbackTriggered (primaryTop catalog conversation prefs limit) <;> simp

/-- When the fallback condition holds, a category was mentioned and the
fallback query is non-empty, the pipeline returns the formatted fallback
list. -/
lemma getRecs_fallback (catalog : List Product)
    (conversation : Option Conversation) (prefs : Prefs) (limit : Nat)
    (category : String) (rest : List String)
    (hs : allDietaryRestrictions conversation prefs = []
      ∨ strictDietaryFilter catalog (allDietaryRestrictions conversation prefs) ≠ [])
    (hc : prefs.categories = category :: rest)
    (ht : fallbackTriggered (primaryTop catalog conversation prefs limit) = true)
    (hfb : fallbackProducts catalog (allDietaryRestrictions conversation prefs)
      category ≠ []) :
    getPersonalizedRecommendations catalog conversation prefs limit
      = ((fallbackProducts catalog (allDietaryRestrictions conversation prefs)
          category).take limit).map (fun p => formatRec (fallbackRec category p)) := by
  unfold getPersonalizedRecommendations
  simp only [sentinel_cond_false catalog conversation prefs hs,
    Bool.false_eq_true, if_false, hc, ht, if_true]
  rw [if_neg (by simpa [List.isEmpty_iff] using hfb)]
  simp only [List.map_map]
  rfl

/-- Every member of a non-trivially filtered list passes every
restriction. -/
lemma all_passes_of_mem_strictDietaryFilter (l : List Product)
    (rs : List String) (hne : rs ≠ []) (p : Product)
    (hp : p ∈ strictDietaryFilter l rs) : rs.all (restrictionPasses p) = true := by
  unfold strictDietaryFilter at hp
  rw [if_neg (by simpa [List.isEmpty_iff] using hne)] at hp
  exact (List.mem_filter.1 hp).2

/-- Every member of the primary ranked list is built from a candidate
that survived the category and budget steps. -/
lemma mem_primaryTop (catalog : List Product)
    (conversation : Option Conversation) (prefs : Prefs) (limit : Nat)
    (s : ScoredRec) (h : s ∈ primaryTop catalog conversation prefs limit) :
    ∃ product ∈ budgetStep
        (categoryStep
          (if (allDietaryRestrictions conversation prefs).isEmpty then catalog
           else strictDietaryFilter catalog (allDietaryRestrictions conversation prefs))
          prefs.categories)
        prefs.budget,
      s.product = product := by
  unfold primaryTop at h
  have h' := List.take_subset _ _ h
  rw [mem_sortDescBy] at h'
  unfold primaryScored at h'
  obtain ⟨product, hp, heq⟩ := List.mem_map.1 h'
  exact ⟨product, hp, by rw [← heq]⟩

/-- C5 (amended): the fallback strategy is bypassed exactly when the
primary ranked list is non-empty with some score at least 30; it is
attempted only when a category was mentioned; the fallback products have
the dietary filter re-applied; and each fallback result carries the
synthetic score (popularity or 50) + 20 — popularity defaulting to 50
when unset or stored as 0. -/
theorem fallback_strategy_behavior (catalog : List Product)
    (conversation : Option Conversation) (prefs : Prefs) (limit : Nat)
    (hs : allDietaryRestrictions conversation prefs = []
      ∨ strictDietaryFilter catalog (allDietaryRestrictions conversation prefs) ≠ []) :
    (fallbackTriggered (primaryTop catalog conversation prefs limit) = false →
      getPersonalizedRecommendations catalog conversation prefs limit
        = (primaryTop catalog conversation prefs limit).map formatRec) ∧
    (prefs.categories = [] →
      getPersonalizedRecommendations catalog conversation prefs limit
        = (primaryTop catalog conversation prefs limit).map formatRec) ∧
    (∀ category rest, prefs.categories = category :: rest →
      fallbackTriggered (primaryTop catalog conversation prefs limit) = true →
      fallbackProducts catalog (allDietaryRestrictions conversation prefs)
          category ≠ [] →
      getPersonalizedRecommendations catalog conversation prefs limit
        = ((fallbackProducts catalog (allDietaryRestrictions conversation prefs)
            category).take limit).map (fun p => formatRec (fallbackRec category p)) ∧
      ∀ rec ∈ getPersonalizedRecommendations catalog conversation prefs limit,
        ∃ p ∈ fallbackProducts catalog (allDietaryRestrictions conversation prefs)
            category,
          rec.recommendation_score = pyOrQ p.popularity_score 50 + 20
            ∧ rec.product_id = p.product_id) ∧
    (∀ category, allDietaryRestrictions conversation prefs ≠ [] →
      ∀ p ∈ fallbackProducts catalog (allDietaryRestrictions conversation prefs)
          category,
        (allDietaryRestrictions conversation prefs).all (restrictionPasses p)
          = true) := by
  refine ⟨getRecs_primary catalog conversation prefs limit hs,
    getRecs_no_category catalog conversation prefs limit hs, ?_, ?_⟩
  · intro category rest hc ht hfb
    have heq := getRecs_fallback catalog conversation prefs limit category rest
      hs hc ht hfb
    refine ⟨heq, ?_⟩
    intro rec hrec
    rw [heq] at hrec
    obtain ⟨p, hp, hpe⟩ := List.mem_map.1 hrec
    exact ⟨p, List.take_subset _ _ hp, by rw [← hpe]; rfl, by rw [← hpe]; rfl⟩
  · intro category hne p hp
    unfold fallbackProducts at hp
    rw [if_neg (by simpa [List.isEmpty_iff] using hne)] at hp
    exact all_passes_of_mem_strictDietaryFilter _ _ hne p hp

/-- Evaluation fact: on the one-product pizza catalog with three unmet
non-strict restrictions the primary ranked list scores below 30, so the
fallback condition holds. -/
lemma fallback_trigger_eval :
    fallbackTriggered (primaryTop [lowPopPie] none fallbackPrefs 3) = true := by
  norm_num +decide [primaryTop, primaryScored, categoryStep, budgetStep,
    categoryMatches, category_keywords, calcRecommendationScore,
    currentRequestScore, round2, pyOrQ, pyOrL, pyLower, strContains,
    sortDescBy, insertDescBy, fallbackTriggered, allDietaryRestrictions,
    pyMergeList, strictDietaryFilter, restrictionPasses, dietary_exclusions,
    productText, lowPopPie, fallbackPrefs, recommendationReasons]

theorem fallback_strategy_behavior_witness :
    getPersonalizedRecommendations [lowPopPie] none fallbackPrefs 3
      = ((fallbackProducts [lowPopPie] (allDietaryRestrictions none fallbackPrefs)
          "pizza").take 3).map (fun p => formatRec (fallbackRec "pizza" p)) :=
  ((fallback_strategy_behavior [lowPopPie] none fallbackPrefs 3 (by decide)).2.2.1
    "pizza" [] rfl fallback_trigger_eval (by decide)).1

/-- C5 counterexample: on a catalog whose only pizza has popularity
stored as 0, the fallback path assigns it the synthetic score 70
(Python falsy-`or` turns popularity 0 into the default 50), not the
0 + 20 = 20 the claim's "defaulting to 50 when unset" predicts. -/
theorem fallback_zero_popularity_cex :
    (getPersonalizedRecommendations [zeroPopPie] none fallbackPrefs 3).map
        (fun rec => rec.recommendation_score) = [70] ∧
    zeroPopPie.popularity_score = some 0 ∧
    (70 : ℚ) ≠ 0 + 20 := by
  refine ⟨?_, rfl, by norm_num⟩
  norm_num +decide [getPersonalizedRecommendations, allDietaryRestrictions,
    pyMergeList, strictDietaryFilter, restrictionPasses, dietary_exclusions,
    productText, pyOrL, pyLower, strContains, primaryTop, primaryScored,
    categoryStep, budgetStep, categoryMatches, category_keywords,
    calcRecommendationScore, currentRequestScore, round2, pyOrQ, sortDescBy,
    insertDescBy, fallbackTriggered, fallbackProducts, fallbackRec, formatRec,
    zeroPopPie, fallbackPrefs, recommendationReasons]

/-- C10: an extracted budget hint acts as a hard pre-filter on the
primary (non-fallback, non-sentinel) path: with "under $X" every
returned recommendation has price at most X, and with "around $X" every
returned recommendation has price within [0.8 X, 1.2 X]. -/
theorem budget_hint_is_hard_prefilter (catalog : List Product)
    (conversation : Option Conversation) (prefs : Prefs) (limit : Nat) (b : Budget)
    (hb : prefs.budget = some b)
    (hs : allDietaryRestrictions conversation prefs = []
      ∨ strictDietaryFilter catalog (allDietaryRestrictions conversation prefs) ≠ [])
    (hf : fallbackTriggered (primaryTop catalog conversation prefs limit) = false) :
    ∀ rec ∈ getPersonalizedRecommendations catalog conversation prefs limit,
      (∀ x : ℚ, b = Budget.under x → rec.price ≤ x) ∧
      (∀ x : ℚ, b = Budget.around x →
        x * 0.8 ≤ rec.price ∧ rec.price ≤ x * 1.2) := by
  intro rec hrec
  rw [getRecs_primary catalog conversation prefs limit hs hf] at hrec
  obtain ⟨s, hsmem, hseq⟩ := List.mem_map.1 hrec
  obtain ⟨product, hpmem, hpeq⟩ :=
    mem_primaryTop catalog conversation prefs limit s hsmem
  have hprice : rec.price = product.price := by
    rw [← hseq, ← hpeq]
    rfl
  rw [hb] at hpmem
  unfold budgetStep at hpmem
  have hok : budgetOk b product.price = true := (List.mem_filter.1 hpmem).2
  constructor
  · intro x hbx
    rw [hbx] at hok
    unfold budgetOk at hok
    rw [hprice]
    exact of_decide_eq_true hok
  · intro x hbx
    rw [hbx] at hok
    unfold budgetOk at hok
    rw [Bool.and_eq_true] at hok
    rw [hprice]
    exact ⟨of_decide_eq_true hok.1, of_decide_eq_true hok.2⟩

/-- Evaluation fact: the cheap pizza scores 34.5 on the primary path, so
the fallback condition does not hold. -/
lemma budget_prefilter_no_fallback_eval :
    fallbackTriggered (primaryTop [budgetPizza] none budgetPizzaPrefs 3) = false := by
  norm_num +decide [primaryTop, primaryScored, categoryStep, budgetStep,
    budgetOk, categoryMatches, category_keywords, calcRecommendationScore,
    currentRequestScore, round2, pyOrQ, pyOrL, pyLower, strContains,
    sortDescBy, insertDescBy, fallbackTriggered, allDietaryRestrictions,
    pyMergeList, strictDietaryFilter, budgetPizza, budgetPizzaPrefs,
    recommendationReasons]

theorem budget_hint_is_hard_prefilter_witness :
    (getPersonalizedRecommendations [budgetPizza] none budgetPizzaPrefs 3).all
      (fun rec => decide (rec.price ≤ 10)) = true := by
  rw [List.all_eq_true]
  intro rec hrec
  exact decide_eq_true
    (((budget_hint_is_hard_prefilter [budgetPizza] none budgetPizzaPrefs 3
        (Budget.under 10) rfl (Or.inl rfl) budget_prefilter_no_fallback_eval)
      rec hrec).1 10 rfl)

theorem empty_filter_returns_sentinel_witness :
    getPersonalizedRecommendations [beefStewBowl] none veganPrefs 5
        = [sentinelRec (allDietaryRestrictions none veganPrefs)] ∧
    getPersonalizedRecommendations [beefStewBowl] none veganPrefs 5 ≠ [] :=
  ⟨(empty_filter_returns_sentinel [beefStewBowl] none veganPrefs 5
      (by decide) (by decide)).1,
   (empty_filter_returns_sentinel [beefStewBowl] none veganPrefs 5
      (by decide) (by decide)).2.2.2⟩

end FoodieBot
